import Mathlib

/-! OpenCVGrabber: a frame grabber over an OpenCV capture session

A shallow embedding of `OpenCVGrabber.cpp` (`open`, `close`, `getImage`).

The grabber owns one raw pointer `m_capture` (0 is the null pointer) and the two
integers `m_w`, `m_h`.  Everything the three methods call lives outside the file:
the OpenCV capture backend (`cvCaptureFromAVI`, `cvCaptureFromCAM`,
`cvReleaseCapture`, `cvGetCaptureProperty`, `cvQueryFrame`), the OpenCV array
routines (`cvCopy`, `cvFlip`, `cvCvtColor`) and the YARP classes `Searchable`,
`Value` and `ImageOf<PixelRgb>`.

* The capture backend is a parameter: a record `Backend σ` of functions over an
  arbitrary backend state `σ`.  Nothing is assumed about it, so a release that
  does not null the pointer and an open that yields null are both covered.
* Every backend call is appended to a trace, so that statements such as
  "no backend open is attempted" or "release comes first" can be written down.
* The `printf` diagnostics are not modelled; they do not influence control flow.
-/

namespace Yarp

/-! ## Configuration (`yarp::os::Searchable`, `yarp::os::Value`) -/

/-- Modelled from the spec: `yarp::os::Value` is declared outside the source file.
The configuration carries integers (`w`, `h`) and strings (`file`), built in the
source by `Value(-1)` and `Value("")`. -/
inductive Value where
  | vInt (i : Int)
  | vString (s : String)
  deriving DecidableEq, Repr

/-- Modelled from the spec: `Value::asInt`; an integer value yields its integer,
a value that is not a number yields 0. -/
def Value.asInt : Value → Int
  | .vInt i => i
  | .vString _ => 0

/-- Modelled from the spec: `Value::asString`; a string value yields its text,
a value that is not a string yields the empty string. -/
def Value.asString : Value → String
  | .vInt _ => ""
  | .vString s => s

/-- Modelled from the spec: `yarp::os::Searchable`, the key-value configuration
handed to `open`; a key is either absent or bound to a value. -/
structure Searchable where
  find : String → Option Value

/-- Modelled from the spec: `Searchable::check(key)`, true when the key is present. -/
def Searchable.check (config : Searchable) (key : String) : Bool :=
  (config.find key).isSome

/-- Modelled from the spec: `Searchable::check(key, fallback)`, the value bound to
the key, or the fallback when the key is absent. -/
def Searchable.checkD (config : Searchable) (key : String) (fallback : Value) : Value :=
  (config.find key).getD fallback

/-! ## Pixels, frames and images -/

/-- Modelled from the spec: `yarp::sig::PixelRgb`, three bytes in memory order.
The same record stands for one pixel of a three-channel `IplImage`, whose bytes
are copied verbatim into the output image: `r` is the first byte of the pixel,
`g` the second, `b` the third. -/
structure PixelRgb where
  r : Nat
  g : Nat
  b : Nat
  deriving DecidableEq, Repr

/-- The pixel whose three bytes are zero. -/
def PixelRgb.zero : PixelRgb := ⟨0, 0, 0⟩

/-- The constant `IPL_ORIGIN_TL` of the OpenCV headers. -/
def IPL_ORIGIN_TL : Int := 0

/-- The constant `IPL_ORIGIN_BL` of the OpenCV headers. -/
def IPL_ORIGIN_BL : Int := 1

/-- Modelled from the spec: the fields of OpenCV's `IplImage` that `getImage`
reads from a captured frame: `width`, `height`, `origin`, `channelSeq` and the
pixel buffer, addressed as `pix row column`.  The C fields `width` and `height`
are of type `int`; a frame has a size that is not negative, hence `Nat`. -/
structure IplImage where
  width : Nat
  height : Nat
  origin : Int
  channelSeq : String
  pix : Nat → Nat → PixelRgb

/-- The character `channelSeq[0]`; an empty tag reads as the terminating NUL. -/
def IplImage.channelSeq0 (f : IplImage) : Char :=
  f.channelSeq.toList.headD (Char.ofNat 0)

/-- Modelled from the spec: `yarp::sig::ImageOf<PixelRgb>`, the caller-owned
destination: a size and a pixel buffer addressed as `pix row column`.  Only the
positions with `row < height` and `column < width` belong to the image. -/
structure ImageOf where
  width : Nat
  height : Nat
  pix : Nat → Nat → PixelRgb

/-- Modelled from the spec: `Image::zero()`, which clears the pixel buffer and
leaves the size of the image as it is. -/
def ImageOf.zero (image : ImageOf) : ImageOf :=
  { image with pix := fun _ _ => PixelRgb.zero }

/-- Modelled from the spec: `Image::resize(w, h)`, which gives the image the
requested size.  The content of a resized buffer is not specified; the model
keeps the old buffer, and `getImage` overwrites every position of the image. -/
def ImageOf.resize (image : ImageOf) (w h : Nat) : ImageOf :=
  { image with width := w, height := h }

/-- Modelled from the spec: `cvCopy(src, dst, 0)` on images of equal size: every
position of the destination receives the source pixel at the same position. -/
def cvCopy (src : IplImage) (dst : ImageOf) : ImageOf :=
  { dst with
    pix := fun row col =>
      if row < dst.height ∧ col < dst.width then src.pix row col else dst.pix row col }

/-- Modelled from the spec: `cvFlip(src, dst, flip_mode)` on images of equal size.
Mode 0 flips around the horizontal axis (rows are reversed), a positive mode
around the vertical axis (columns are reversed), a negative mode around both. -/
def cvFlip (src : IplImage) (dst : ImageOf) (flip_mode : Int) : ImageOf :=
  { dst with
    pix := fun row col =>
      if row < dst.height ∧ col < dst.width then
        if flip_mode = 0 then src.pix (dst.height - 1 - row) col
        else if 0 < flip_mode then src.pix row (dst.width - 1 - col)
        else src.pix (dst.height - 1 - row) (dst.width - 1 - col)
      else dst.pix row col }

/-- The colour conversion codes used by the grabber. -/
inductive ColorConversion where
  | CV_BGR2RGB
  deriving DecidableEq, Repr

/-- Modelled from the spec: `cvCvtColor(img, img, CV_BGR2RGB)` in place: in every
pixel of the image the first and the third byte change places. -/
def cvCvtColor (img : ImageOf) (code : ColorConversion) : ImageOf :=
  match code with
  | .CV_BGR2RGB =>
    { img with
      pix := fun row col =>
        if row < img.height ∧ col < img.width then
          ⟨(img.pix row col).b, (img.pix row col).g, (img.pix row col).r⟩
        else img.pix row col }

/-- Every pixel of the image is zero. -/
def ImageOf.allZero (image : ImageOf) : Prop :=
  ∀ row, row < image.height → ∀ col, col < image.width → image.pix row col = PixelRgb.zero

instance (image : ImageOf) : Decidable image.allZero :=
  inferInstanceAs (Decidable (∀ row, row < image.height → ∀ col, col < image.width →
    image.pix row col = PixelRgb.zero))

/-! ## The capture backend -/

/-- The capture properties queried by `open`. -/
inductive CaptureProperty where
  | CV_CAP_PROP_FRAME_WIDTH
  | CV_CAP_PROP_FRAME_HEIGHT
  deriving DecidableEq, Repr

/-- The OpenCV capture backend over a backend state `σ`.  Handles are pointers,
0 being null.  `cvReleaseCapture` returns the value the caller's pointer holds
after the call (null for a well-behaved backend).  `cvGetCaptureProperty` stands
for the query together with the `(int)` cast applied to its result. -/
structure Backend (σ : Type) where
  cvCaptureFromAVI : σ → String → Nat × σ
  cvCaptureFromCAM : σ → Int → Nat × σ
  cvReleaseCapture : σ → Nat → Nat × σ
  cvGetCaptureProperty : σ → Nat → CaptureProperty → Int
  cvQueryFrame : σ → Nat → Option IplImage × σ

/-- One call into the backend, with its arguments and its result. -/
inductive Event where
  | releaseCapture (handle : Nat) (after : Nat)
  | captureFromAVI (file : String) (handle : Nat)
  | captureFromCAM (index : Int) (handle : Nat)
  | getCaptureProperty (handle : Nat) (prop : CaptureProperty) (value : Int)
  | queryFrame (handle : Nat) (gotFrame : Bool)
  deriving DecidableEq, Repr

/-- The event is a call of `cvReleaseCapture`. -/
def Event.isRelease : Event → Bool
  | .releaseCapture _ _ => true
  | _ => false

/-- The handle a backend open (`cvCaptureFromAVI` or `cvCaptureFromCAM`) yielded;
`none` for every other call. -/
def Event.opened : Event → Option Nat
  | .captureFromAVI _ h => some h
  | .captureFromCAM _ h => some h
  | _ => none

/-- The event is a call of `cvQueryFrame`. -/
def Event.isQuery : Event → Bool
  | .queryFrame _ _ => true
  | _ => false

/-! ## The grabber -/

/-- The data members of `OpenCVGrabber`: the capture pointer (0 is null) and the
resolved image size. -/
structure OpenCVGrabber where
  m_capture : Nat
  m_w : Int
  m_h : Int
  deriving DecidableEq, Repr

/-- The grabber together with the backend state and the trace of backend calls. -/
structure Sys (σ : Type) where
  self : OpenCVGrabber
  world : σ
  trace : List Event

/-- The method `OpenCVGrabber::close`. -/
def OpenCVGrabber.close {σ : Type} (B : Backend σ) (s : Sys σ) : Bool × Sys σ :=
  -- if (0 != m_capture) cvReleaseCapture((CvCapture**)(&m_capture));
  let s1 : Sys σ :=
    if s.self.m_capture ≠ 0 then
      let rel := B.cvReleaseCapture s.world s.self.m_capture
      { self := { s.self with m_capture := rel.1 },
        world := rel.2,
        trace := s.trace ++ [Event.releaseCapture s.self.m_capture rel.1] }
    else s
  -- if (0 != m_capture) { m_capture = 0; return false; } else return true;
  if s1.self.m_capture ≠ 0 then
    (false, { s1 with self := { s1.self with m_capture := 0 } })
  else (true, s1)

/-- The first half of `OpenCVGrabber::open`: the choice between file and camera
and the backend open.  The boolean is false where the source returns false. -/
def OpenCVGrabber.openCapture {σ : Type} (B : Backend σ) (config : Searchable) (s : Sys σ) :
    Bool × Sys σ :=
  if config.check "file" then
    let file := (config.checkD "file" (Value.vString "")).asString
    if "" = file then (false, s)
    else
      let cap := B.cvCaptureFromAVI s.world file
      let s1 : Sys σ :=
        { self := { s.self with m_capture := cap.1 },
          world := cap.2,
          trace := s.trace ++ [Event.captureFromAVI file cap.1] }
      if 0 = cap.1 then (false, s1) else (true, s1)
  else
    let cap := B.cvCaptureFromCAM s.world (-1)
    let s1 : Sys σ :=
      { self := { s.self with m_capture := cap.1 },
        world := cap.2,
        trace := s.trace ++ [Event.captureFromCAM (-1) cap.1] }
    if 0 = cap.1 then (false, s1) else (true, s1)

/-- The second half of `OpenCVGrabber::open`: the image size, from the
configuration where present, from the capture device otherwise. -/
def OpenCVGrabber.resolveSize {σ : Type} (B : Backend σ) (config : Searchable) (s : Sys σ) : Sys σ :=
  let s1 : Sys σ :=
    if config.check "w" then
      { s with self := { s.self with m_w := (config.checkD "w" (Value.vInt (-1))).asInt } }
    else
      let v := B.cvGetCaptureProperty s.world s.self.m_capture
        CaptureProperty.CV_CAP_PROP_FRAME_WIDTH
      { s with
        self := { s.self with m_w := v },
        trace := s.trace ++ [Event.getCaptureProperty s.self.m_capture
          CaptureProperty.CV_CAP_PROP_FRAME_WIDTH v] }
  if config.check "h" then
    { s1 with self := { s1.self with m_h := (config.checkD "h" (Value.vInt (-1))).asInt } }
  else
    let v := B.cvGetCaptureProperty s1.world s1.self.m_capture
      CaptureProperty.CV_CAP_PROP_FRAME_HEIGHT
    { s1 with
      self := { s1.self with m_h := v },
      trace := s1.trace ++ [Event.getCaptureProperty s1.self.m_capture
        CaptureProperty.CV_CAP_PROP_FRAME_HEIGHT v] }

/-- The method `OpenCVGrabber::open`. -/
def OpenCVGrabber.open {σ : Type} (B : Backend σ) (config : Searchable) (s : Sys σ) : Bool × Sys σ :=
  -- close();
  let s0 := (OpenCVGrabber.close B s).2
  let opened := OpenCVGrabber.openCapture B config s0
  if opened.1 then (true, OpenCVGrabber.resolveSize B config opened.2)
  else (false, opened.2)

/-- The method `OpenCVGrabber::getImage`: the returned flag, the image afterwards and the
system afterwards. -/
def OpenCVGrabber.getImage {σ : Type} (B : Backend σ) (image : ImageOf) (s : Sys σ) :
    Bool × ImageOf × Sys σ :=
  if 0 = s.self.m_capture then (false, image.zero, s)
  else
    let q := B.cvQueryFrame s.world s.self.m_capture
    let s1 : Sys σ :=
      { s with
        world := q.2,
        trace := s.trace ++ [Event.queryFrame s.self.m_capture q.1.isSome] }
    match q.1 with
    | none => (false, image.zero, s1)
    | some iplFrame =>
      let image1 := image.resize iplFrame.width iplFrame.height
      let image2 :=
        if IPL_ORIGIN_TL = iplFrame.origin then cvCopy iplFrame image1
        else cvFlip iplFrame image1 0
      let image3 :=
        if iplFrame.channelSeq0 = 'B' then cvCvtColor image2 ColorConversion.CV_BGR2RGB
        else image2
      (true, image3, s1)

/-! ## Sample sources -/

/-- A top-left-origin, red-first frame of two rows and two columns. -/
def sampleFrameTL : IplImage :=
  { width := 2, height := 2, origin := IPL_ORIGIN_TL, channelSeq := "RGB",
    pix := fun row col => ⟨10 * row + col, 100 + 10 * row + col, 200 + 10 * row + col⟩ }

/-- The same picture delivered bottom row first, with bottom-left origin. -/
def sampleFrameBL : IplImage :=
  { width := 2, height := 2, origin := IPL_ORIGIN_BL, channelSeq := "RGB",
    pix := fun row col => sampleFrameTL.pix (1 - row) col }

/-- A top-left-origin frame tagged blue-first. -/
def sampleFrameBGR : IplImage :=
  { width := 2, height := 2, origin := IPL_ORIGIN_TL, channelSeq := "BGR",
    pix := fun row col => ⟨10 * row + col, 100 + 10 * row + col, 200 + 10 * row + col⟩ }

/-- A source of 640 by 480 whose state is the number of frames still to come.
The file "clip.avi" opens with handle 9, any other file fails to open, the
camera opens with handle 7.  Each query delivers `frame` while frames remain.
With `stubborn` set, the release leaves the caller's pointer as it was. -/
def sampleSource (frame : IplImage) (stubborn : Bool) : Backend Nat :=
  { cvCaptureFromAVI := fun n file => (if file = "clip.avi" then 9 else 0, n),
    cvCaptureFromCAM := fun n _ => (7, n),
    cvReleaseCapture := fun n h => (if stubborn then h else 0, n),
    cvGetCaptureProperty := fun _ _ prop =>
      match prop with
      | .CV_CAP_PROP_FRAME_WIDTH => 640
      | .CV_CAP_PROP_FRAME_HEIGHT => 480,
    cvQueryFrame := fun n _ => if n = 0 then (none, 0) else (some frame, n - 1) }

/-- A grabber that holds no session, over a source with `frames` frames to come. -/
def closedSys (frames : Nat) : Sys Nat :=
  { self := { m_capture := 0, m_w := 0, m_h := 0 }, world := frames, trace := [] }

/-- A grabber that holds the session with handle 7, resolved to 640 by 480. -/
def openSys (frames : Nat) : Sys Nat :=
  { self := { m_capture := 7, m_w := 640, m_h := 480 }, world := frames, trace := [] }

/-- A configuration from the optional values of `file`, `w` and `h`. -/
def mkConfig (file w h : Option Value) : Searchable :=
  { find := fun key =>
      if key = "file" then file else if key = "w" then w else if key = "h" then h else none }

/-- A 640 by 480 frame, all black. -/
def sampleFrameVGA : IplImage :=
  { width := 640, height := 480, origin := IPL_ORIGIN_TL, channelSeq := "BGR",
    pix := fun _ _ => ⟨0, 0, 0⟩ }

/-- A grabber opened with `w = 320`, `h = 240` on a camera that delivers frames
of 640 by 480. -/
def sys320 : Sys Nat :=
  (OpenCVGrabber.open (sampleSource sampleFrameVGA false)
    (mkConfig none (some (Value.vInt 320)) (some (Value.vInt 240))) (closedSys 1)).2

/-- A grabber opened with `w = 320`, `h = 240` on a camera that has no frame to
deliver. -/
def sys320Dry : Sys Nat :=
  (OpenCVGrabber.open (sampleSource sampleFrameVGA false)
    (mkConfig none (some (Value.vInt 320)) (some (Value.vInt 240))) (closedSys 0)).2

/-- A destination image of two by two with stale content. -/
def staleImage : ImageOf :=
  { width := 2, height := 2, pix := fun _ _ => ⟨1, 2, 3⟩ }

end Yarp

namespace Yarp

/-! ## close -/

/-- After `close` the capture pointer is null, whatever the release did. -/
theorem close_capture_null {σ : Type} (B : Backend σ) (s : Sys σ) :
    (OpenCVGrabber.close B s).2.self.m_capture = 0 := by
  unfold OpenCVGrabber.close
  by_cases h : s.self.m_capture = 0
  · simp [h]
  · by_cases h2 : (B.cvReleaseCapture s.world s.self.m_capture).1 = 0
    · simp [h, h2]
    · simp [h, h2]

/-- With a null capture pointer `close` returns true and changes nothing. -/
theorem close_of_null {σ : Type} (B : Backend σ) (s : Sys σ) (h : s.self.m_capture = 0) :
    OpenCVGrabber.close B s = (true, s) := by
  unfold OpenCVGrabber.close
  simp [h]

/-- The flag returned by `close`. -/
theorem close_fails_iff {σ : Type} (B : Backend σ) (s : Sys σ) :
    (OpenCVGrabber.close B s).1 = false ↔
      (s.self.m_capture ≠ 0 ∧ (B.cvReleaseCapture s.world s.self.m_capture).1 ≠ 0) := by
  unfold OpenCVGrabber.close
  by_cases h : s.self.m_capture = 0
  · simp [h]
  · by_cases h2 : (B.cvReleaseCapture s.world s.self.m_capture).1 = 0
    · simp [h, h2]
    · simp [h, h2]

/-- The backend calls made by `close`: one release when a session is held, none
otherwise. -/
theorem close_trace {σ : Type} (B : Backend σ) (s : Sys σ) :
    (OpenCVGrabber.close B s).2.trace =
      s.trace ++ (if s.self.m_capture ≠ 0 then
        [Event.releaseCapture s.self.m_capture
          (B.cvReleaseCapture s.world s.self.m_capture).1] else []) := by
  unfold OpenCVGrabber.close
  by_cases h : s.self.m_capture = 0
  · simp [h]
  · by_cases h2 : (B.cvReleaseCapture s.world s.self.m_capture).1 = 0
    · simp [h, h2]
    · simp [h, h2]

/-- With a null capture pointer `getImage` zeroes the image, returns false and
changes nothing else. -/
theorem getImage_of_null {σ : Type} (B : Backend σ) (image : ImageOf) (s : Sys σ)
    (h : s.self.m_capture = 0) :
    OpenCVGrabber.getImage B image s = (false, image.zero, s) := by
  unfold OpenCVGrabber.getImage
  simp [h]

/-- A zeroed image has only zero pixels. -/
theorem zero_allZero (image : ImageOf) : image.zero.allZero := by
  intro row _ col _
  rfl

/-- The method `getImage` never touches the data members of the grabber. -/
theorem getImage_self {σ : Type} (B : Backend σ) (image : ImageOf) (s : Sys σ) :
    (OpenCVGrabber.getImage B image s).2.2.self = s.self := by
  unfold OpenCVGrabber.getImage
  by_cases h : 0 = s.self.m_capture
  · simp [h]
  · simp only [h, if_false]
    cases hq : (B.cvQueryFrame s.world s.self.m_capture).1 <;> simp

/-- The result of `getImage` when a session is held and the backend yields a frame. -/
theorem getImage_of_frame {σ : Type} (B : Backend σ) (image : ImageOf) (s : Sys σ)
    (f : IplImage) (hopen : s.self.m_capture ≠ 0)
    (hq : (B.cvQueryFrame s.world s.self.m_capture).1 = some f) :
    (OpenCVGrabber.getImage B image s).1 = true ∧
    (OpenCVGrabber.getImage B image s).2.1 =
      (if f.channelSeq0 = 'B' then
        cvCvtColor (if IPL_ORIGIN_TL = f.origin then cvCopy f (image.resize f.width f.height)
          else cvFlip f (image.resize f.width f.height) 0) ColorConversion.CV_BGR2RGB
       else (if IPL_ORIGIN_TL = f.origin then cvCopy f (image.resize f.width f.height)
          else cvFlip f (image.resize f.width f.height) 0)) := by
  unfold OpenCVGrabber.getImage
  have h : ¬ (0 = s.self.m_capture) := fun e => hopen e.symm
  simp [h, hq]

/-- The result of `getImage` when a session is held and the backend yields no frame. -/
theorem getImage_of_no_frame {σ : Type} (B : Backend σ) (image : ImageOf) (s : Sys σ)
    (hopen : s.self.m_capture ≠ 0)
    (hq : (B.cvQueryFrame s.world s.self.m_capture).1 = none) :
    (OpenCVGrabber.getImage B image s).1 = false ∧
    (OpenCVGrabber.getImage B image s).2.1 = image.zero := by
  unfold OpenCVGrabber.getImage
  have h : ¬ (0 = s.self.m_capture) := fun e => hopen e.symm
  simp [h, hq]

/-- C1: whenever `getImage` obtains no frame (no session is held, or a session is
held and the frame query of the backend yields none) it returns false; the image
afterwards is the image passed in with its buffer zeroed: it has the width and
height it had before and every pixel of it is zero; the capture pointer is
unchanged; and with no session held the backend is not called at all and the
whole system is as it was before. -/
theorem getImage_no_frame_fails {σ : Type} (B : Backend σ) (image : ImageOf) (s : Sys σ)
    (h : s.self.m_capture = 0 ∨
      (s.self.m_capture ≠ 0 ∧ (B.cvQueryFrame s.world s.self.m_capture).1 = none)) :
    (OpenCVGrabber.getImage B image s).1 = false ∧
    (OpenCVGrabber.getImage B image s).2.1 = image.zero ∧
    (OpenCVGrabber.getImage B image s).2.1.width = image.width ∧
    (OpenCVGrabber.getImage B image s).2.1.height = image.height ∧
    (∀ row col, row < image.height → col < image.width →
      (OpenCVGrabber.getImage B image s).2.1.pix row col = PixelRgb.zero) ∧
    (OpenCVGrabber.getImage B image s).2.1.allZero ∧
    (OpenCVGrabber.getImage B image s).2.2.self.m_capture = s.self.m_capture ∧
    (s.self.m_capture = 0 → (OpenCVGrabber.getImage B image s).2.2 = s) := by
  have himg : (OpenCVGrabber.getImage B image s).2.1 = image.zero := by
    rcases h with h | ⟨h1, h2⟩
    · rw [getImage_of_null B image s h]
    · exact (getImage_of_no_frame B image s h1 h2).2
  refine ⟨?_, himg, ?_, ?_, ?_, ?_, ?_, ?_⟩
  · rcases h with h | ⟨h1, h2⟩
    · rw [getImage_of_null B image s h]
    · exact (getImage_of_no_frame B image s h1 h2).1
  · rw [himg]; rfl
  · rw [himg]; rfl
  · intro row col _ _
    rw [himg]; rfl
  · rw [himg]
    exact zero_allZero image
  · rw [getImage_self]
  · intro h0
    rw [getImage_of_null B image s h0]

/-- C1 at two inputs, each with a two by two image of stale content: a grabber
without a session, and a grabber with a session whose source has run out of
frames.  In both the call returns false, the image is still two by two, its
pixel at row 0, column 0 is zero, and the capture pointer is as before. -/
theorem getImage_no_frame_fails_witness :
    ((OpenCVGrabber.getImage (sampleSource sampleFrameTL false) staleImage (closedSys 3)).1 = false ∧
     (OpenCVGrabber.getImage (sampleSource sampleFrameTL false) staleImage
        (closedSys 3)).2.1.width = 2 ∧
     (OpenCVGrabber.getImage (sampleSource sampleFrameTL false) staleImage
        (closedSys 3)).2.1.height = 2 ∧
     (OpenCVGrabber.getImage (sampleSource sampleFrameTL false) staleImage
        (closedSys 3)).2.1.pix 0 0 = ⟨0, 0, 0⟩ ∧
     (OpenCVGrabber.getImage (sampleSource sampleFrameTL false) staleImage
        (closedSys 3)).2.2.self.m_capture = 0) ∧
    ((OpenCVGrabber.getImage (sampleSource sampleFrameTL false) staleImage (openSys 0)).1 = false ∧
     (OpenCVGrabber.getImage (sampleSource sampleFrameTL false) staleImage
        (openSys 0)).2.1.width = 2 ∧
     (OpenCVGrabber.getImage (sampleSource sampleFrameTL false) staleImage
        (openSys 0)).2.1.height = 2 ∧
     (OpenCVGrabber.getImage (sampleSource sampleFrameTL false) staleImage
        (openSys 0)).2.1.pix 0 0 = ⟨0, 0, 0⟩ ∧
     (OpenCVGrabber.getImage (sampleSource sampleFrameTL false) staleImage
        (openSys 0)).2.2.self.m_capture = 7) :=
  have a := getImage_no_frame_fails (sampleSource sampleFrameTL false) staleImage (closedSys 3)
    (Or.inl rfl)
  have b := getImage_no_frame_fails (sampleSource sampleFrameTL false) staleImage (openSys 0)
    (Or.inr ⟨by decide, rfl⟩)
  ⟨⟨a.1, a.2.2.1, a.2.2.2.1, a.2.2.2.2.1 0 0 (by decide) (by decide), a.2.2.2.2.2.2.1⟩,
   ⟨b.1, b.2.2.1, b.2.2.2.1, b.2.2.2.2.1 0 0 (by decide) (by decide), b.2.2.2.2.2.2.1⟩⟩

/-- C7: `close` returns false exactly when a session was held and the release of
the backend left the pointer non-null, and true otherwise; in every case the
grabber holds no session afterwards, so that a following `getImage` takes the
no-session path: it returns false, zeroes the image and calls nothing. -/
theorem close_reports_release_anomaly {σ : Type} (B : Backend σ) (s : Sys σ)
    (image : ImageOf) :
    ((OpenCVGrabber.close B s).1 = false ↔
      (s.self.m_capture ≠ 0 ∧ (B.cvReleaseCapture s.world s.self.m_capture).1 ≠ 0)) ∧
    ((OpenCVGrabber.close B s).1 = true ↔
      ¬ (s.self.m_capture ≠ 0 ∧ (B.cvReleaseCapture s.world s.self.m_capture).1 ≠ 0)) ∧
    (OpenCVGrabber.close B s).2.self.m_capture = 0 ∧
    OpenCVGrabber.getImage B image (OpenCVGrabber.close B s).2 =
      (false, image.zero, (OpenCVGrabber.close B s).2) := by
  refine ⟨close_fails_iff B s, ?_, close_capture_null B s, ?_⟩
  · rw [← close_fails_iff B s]
    cases (OpenCVGrabber.close B s).1 <;> simp
  · exact getImage_of_null B image _ (close_capture_null B s)

/-- C6, as stated, fails: with a session held and a release that leaves the
pointer non-null, the first of two successive calls of `close` returns false. -/
theorem first_close_may_fail :
    ¬ ((OpenCVGrabber.close (sampleSource sampleFrameTL true) (openSys 1)).1 = true ∧
       (OpenCVGrabber.close (sampleSource sampleFrameTL true)
          (OpenCVGrabber.close (sampleSource sampleFrameTL true) (openSys 1)).2).1 = true) := by
  decide

/-- C6, amended: of two successive calls of `close` the first returns true unless
a session was held and the release left the pointer non-null; the second always
returns true, calls nothing and leaves the system as the first call left it; and
a `close` with no session held returns true and changes nothing. -/
theorem close_twice {σ : Type} (B : Backend σ) (s : Sys σ) :
    ((OpenCVGrabber.close B s).1 = true ↔
      (s.self.m_capture = 0 ∨ (B.cvReleaseCapture s.world s.self.m_capture).1 = 0)) ∧
    OpenCVGrabber.close B (OpenCVGrabber.close B s).2 = (true, (OpenCVGrabber.close B s).2) ∧
    (s.self.m_capture = 0 → OpenCVGrabber.close B s = (true, s)) := by
  refine ⟨?_, close_of_null B _ (close_capture_null B s), close_of_null B s⟩
  have h := close_fails_iff B s
  constructor
  · intro ht
    by_contra hne
    push_neg at hne
    have := h.mpr hne
    rw [ht] at this
    exact Bool.noConfusion this
  · intro hc
    cases hv : (OpenCVGrabber.close B s).1
    · have := h.mp hv
      rcases hc with hc | hc
      · exact absurd hc this.1
      · exact absurd hc this.2
    · rfl

/-- C6, amended, at a grabber without a session. -/
theorem close_twice_witness :
    OpenCVGrabber.close (sampleSource sampleFrameTL false) (closedSys 1) =
      (true, closedSys 1) :=
  (close_twice (sampleSource sampleFrameTL false) (closedSys 1)).2.2 rfl

/-- C10: with a session held and a frame yielded, `getImage` returns true and the
image takes the width and height the frame reports, whatever size was resolved
at open; and no call of `getImage`, whether it succeeds or fails, changes `m_w`,
`m_h` or the capture pointer. -/
theorem getImage_takes_frame_size {σ : Type} (B : Backend σ) (image : ImageOf) (s : Sys σ) :
    (∀ f : IplImage, s.self.m_capture ≠ 0 →
      (B.cvQueryFrame s.world s.self.m_capture).1 = some f →
      (OpenCVGrabber.getImage B image s).1 = true ∧
      (OpenCVGrabber.getImage B image s).2.1.width = f.width ∧
      (OpenCVGrabber.getImage B image s).2.1.height = f.height) ∧
    (OpenCVGrabber.getImage B image s).2.2.self = s.self := by
  refine ⟨?_, getImage_self B image s⟩
  intro f hopen hq
  obtain ⟨h1, h2⟩ := getImage_of_frame B image s f hopen hq
  refine ⟨h1, ?_, ?_⟩
  · rw [h2]
    by_cases hb : f.channelSeq0 = 'B' <;> by_cases ho : IPL_ORIGIN_TL = f.origin <;>
      simp [hb, ho, cvCvtColor, cvCopy, cvFlip, ImageOf.resize]
  · rw [h2]
    by_cases hb : f.channelSeq0 = 'B' <;> by_cases ho : IPL_ORIGIN_TL = f.origin <;>
      simp [hb, ho, cvCvtColor, cvCopy, cvFlip, ImageOf.resize]

/-- C10 at a grabber opened with `w = 320`, `h = 240` on a 640 by 480 source:
the resolved size is 320 by 240 before and after, the image becomes 640 by 480. -/
theorem getImage_takes_frame_size_witness :
    (sys320.self.m_w = 320 ∧ sys320.self.m_h = 240) ∧
    ((OpenCVGrabber.getImage (sampleSource sampleFrameVGA false) staleImage sys320).1 = true ∧
     (OpenCVGrabber.getImage (sampleSource sampleFrameVGA false) staleImage sys320).2.1.width = 640 ∧
     (OpenCVGrabber.getImage (sampleSource sampleFrameVGA false) staleImage sys320).2.1.height
       = 480) ∧
    (OpenCVGrabber.getImage (sampleSource sampleFrameVGA false) staleImage sys320).2.2.self
      = ⟨7, 320, 240⟩ :=
  ⟨by decide,
   (getImage_takes_frame_size (sampleSource sampleFrameVGA false) staleImage sys320).1
     sampleFrameVGA (by decide) rfl,
   (getImage_takes_frame_size (sampleSource sampleFrameVGA false) staleImage sys320).2⟩

/-- The image after `getImage` for a frame that is not tagged blue-first and has
top-left origin: the frame, position by position. -/
theorem getImage_copy {σ : Type} (B : Backend σ) (image : ImageOf) (s : Sys σ)
    (f : IplImage) (hopen : s.self.m_capture ≠ 0)
    (hq : (B.cvQueryFrame s.world s.self.m_capture).1 = some f)
    (hnb : f.channelSeq0 ≠ 'B') (htl : f.origin = IPL_ORIGIN_TL) :
    (OpenCVGrabber.getImage B image s).2.1.width = f.width ∧
    (OpenCVGrabber.getImage B image s).2.1.height = f.height ∧
    ∀ row col, row < f.height → col < f.width →
      (OpenCVGrabber.getImage B image s).2.1.pix row col = f.pix row col := by
  rw [(getImage_of_frame B image s f hopen hq).2]
  simp only [hnb, if_false, htl, if_true]
  refine ⟨rfl, rfl, ?_⟩
  intro row col hr hc
  simp [cvCopy, ImageOf.resize, hr, hc]

/-- The image after `getImage` for a frame that is not tagged blue-first and does
not have top-left origin: the frame with its rows in reverse order. -/
theorem getImage_flip {σ : Type} (B : Backend σ) (image : ImageOf) (s : Sys σ)
    (f : IplImage) (hopen : s.self.m_capture ≠ 0)
    (hq : (B.cvQueryFrame s.world s.self.m_capture).1 = some f)
    (hnb : f.channelSeq0 ≠ 'B') (hbl : f.origin ≠ IPL_ORIGIN_TL) :
    (OpenCVGrabber.getImage B image s).2.1.width = f.width ∧
    (OpenCVGrabber.getImage B image s).2.1.height = f.height ∧
    ∀ row col, row < f.height → col < f.width →
      (OpenCVGrabber.getImage B image s).2.1.pix row col = f.pix (f.height - 1 - row) col := by
  rw [(getImage_of_frame B image s f hopen hq).2]
  have hbl2 : ¬ (IPL_ORIGIN_TL = f.origin) := fun e => hbl e.symm
  simp only [hnb, if_false, hbl2]
  refine ⟨rfl, rfl, ?_⟩
  intro row col hr hc
  simp [cvFlip, ImageOf.resize, hr, hc]

/-- C8: for a yielded frame tagged red-first: with top-left origin the image after
`getImage` has the size of the frame and equals it pixel for pixel; with
bottom-left origin row `r` of the image is row `height - 1 - r` of the frame;
hence a bottom-left frame that holds the vertical mirror of a top-left frame
gives the same image as that top-left frame. -/
theorem getImage_orientation {σ : Type} (B : Backend σ) (image : ImageOf) (s : Sys σ)
    (f : IplImage) (hopen : s.self.m_capture ≠ 0)
    (hq : (B.cvQueryFrame s.world s.self.m_capture).1 = some f)
    (hred : f.channelSeq0 = 'R') :
    (f.origin = IPL_ORIGIN_TL →
      (OpenCVGrabber.getImage B image s).2.1.width = f.width ∧
      (OpenCVGrabber.getImage B image s).2.1.height = f.height ∧
      ∀ row col, row < f.height → col < f.width →
        (OpenCVGrabber.getImage B image s).2.1.pix row col = f.pix row col) ∧
    (f.origin = IPL_ORIGIN_BL →
      (OpenCVGrabber.getImage B image s).2.1.width = f.width ∧
      (OpenCVGrabber.getImage B image s).2.1.height = f.height ∧
      ∀ row col, row < f.height → col < f.width →
        (OpenCVGrabber.getImage B image s).2.1.pix row col = f.pix (f.height - 1 - row) col) ∧
    (∀ (τ : Type) (B2 : Backend τ) (image2 : ImageOf) (s2 : Sys τ) (g : IplImage),
      s2.self.m_capture ≠ 0 →
      (B2.cvQueryFrame s2.world s2.self.m_capture).1 = some g →
      g.channelSeq0 = 'R' →
      f.origin = IPL_ORIGIN_TL → g.origin = IPL_ORIGIN_BL →
      g.width = f.width → g.height = f.height →
      (∀ row col, row < f.height → col < f.width →
        g.pix row col = f.pix (f.height - 1 - row) col) →
      (OpenCVGrabber.getImage B2 image2 s2).2.1.width =
        (OpenCVGrabber.getImage B image s).2.1.width ∧
      (OpenCVGrabber.getImage B2 image2 s2).2.1.height =
        (OpenCVGrabber.getImage B image s).2.1.height ∧
      ∀ row col, row < (OpenCVGrabber.getImage B image s).2.1.height →
        col < (OpenCVGrabber.getImage B image s).2.1.width →
        (OpenCVGrabber.getImage B2 image2 s2).2.1.pix row col =
          (OpenCVGrabber.getImage B image s).2.1.pix row col) := by
  have hnb : f.channelSeq0 ≠ 'B' := by rw [hred]; decide
  have hbl_ne : IPL_ORIGIN_BL ≠ IPL_ORIGIN_TL := by decide
  refine ⟨fun htl => getImage_copy B image s f hopen hq hnb htl,
    fun hbl => getImage_flip B image s f hopen hq hnb (by rw [hbl]; exact hbl_ne), ?_⟩
  intro τ B2 image2 s2 g hopen2 hq2 hred2 htl hbl hw hh hmirror
  have hnb2 : g.channelSeq0 ≠ 'B' := by rw [hred2]; decide
  obtain ⟨fw, fh, fp⟩ := getImage_copy B image s f hopen hq hnb htl
  obtain ⟨gw, gh, gp⟩ :=
    getImage_flip B2 image2 s2 g hopen2 hq2 hnb2 (by rw [hbl]; exact hbl_ne)
  refine ⟨by rw [gw, fw, hw], by rw [gh, fh, hh], ?_⟩
  intro row col hr hc
  rw [fh] at hr
  rw [fw] at hc
  rw [gp row col (by rw [hh]; exact hr) (by rw [hw]; exact hc), fp row col hr hc, hh]
  have hr2 : f.height - 1 - row < f.height := by omega
  rw [hmirror (f.height - 1 - row) col hr2 hc]
  congr 1
  omega

/-- C8 at a two by two picture: delivered top-left it comes out as it is, and
delivered bottom-left (rows mirrored) it comes out as the top-left picture. -/
theorem getImage_orientation_witness :
    (OpenCVGrabber.getImage (sampleSource sampleFrameTL false) staleImage (openSys 1)).2.1.pix 0 1
      = sampleFrameTL.pix 0 1 ∧
    (OpenCVGrabber.getImage (sampleSource sampleFrameBL false) staleImage (openSys 1)).2.1.pix 0 1
      = (OpenCVGrabber.getImage (sampleSource sampleFrameTL false) staleImage
          (openSys 1)).2.1.pix 0 1 :=
  have h := getImage_orientation (sampleSource sampleFrameTL false) staleImage (openSys 1)
    sampleFrameTL (by decide) rfl (by decide)
  ⟨(h.1 rfl).2.2 0 1 (by decide) (by decide),
   (h.2.2 Nat (sampleSource sampleFrameBL false) staleImage (openSys 1) sampleFrameBL
      (by decide) rfl (by decide) rfl rfl rfl rfl
      (by
        intro row col hr hc
        have hh : sampleFrameTL.height = 2 := rfl
        rw [hh] at hr
        have : 2 - 1 - row = 1 - row := by omega
        rw [hh, this]
        rfl)).2.2 0 1 (by decide) (by decide)⟩

/-- C9: for a yielded frame with top-left origin: if the channel tag begins with
B, every pixel of the image has as first byte the third byte of the frame pixel,
as third byte its first byte, and the middle byte unchanged; if the tag begins
with any other character, every pixel of the image equals the frame pixel. -/
theorem getImage_channel_order {σ : Type} (B : Backend σ) (image : ImageOf) (s : Sys σ)
    (f : IplImage) (hopen : s.self.m_capture ≠ 0)
    (hq : (B.cvQueryFrame s.world s.self.m_capture).1 = some f)
    (htl : f.origin = IPL_ORIGIN_TL) :
    (f.channelSeq0 = 'B' →
      ∀ row col, row < f.height → col < f.width →
        ((OpenCVGrabber.getImage B image s).2.1.pix row col).r = (f.pix row col).b ∧
        ((OpenCVGrabber.getImage B image s).2.1.pix row col).g = (f.pix row col).g ∧
        ((OpenCVGrabber.getImage B image s).2.1.pix row col).b = (f.pix row col).r) ∧
    (f.channelSeq0 ≠ 'B' →
      ∀ row col, row < f.height → col < f.width →
        (OpenCVGrabber.getImage B image s).2.1.pix row col = f.pix row col) := by
  refine ⟨?_, fun hnb => (getImage_copy B image s f hopen hq hnb htl).2.2⟩
  intro hb row col hr hc
  rw [(getImage_of_frame B image s f hopen hq).2]
  simp only [hb, if_true, htl]
  simp [cvCvtColor, cvCopy, ImageOf.resize, hr, hc]

/-- C9 at a two by two frame, once tagged BGR and once tagged RGB. -/
theorem getImage_channel_order_witness :
    ((OpenCVGrabber.getImage (sampleSource sampleFrameBGR false) staleImage
        (openSys 1)).2.1.pix 1 0).r = (sampleFrameBGR.pix 1 0).b ∧
    (OpenCVGrabber.getImage (sampleSource sampleFrameTL false) staleImage
        (openSys 1)).2.1.pix 1 0 = sampleFrameTL.pix 1 0 :=
  ⟨((getImage_channel_order (sampleSource sampleFrameBGR false) staleImage (openSys 1)
      sampleFrameBGR (by decide) rfl rfl).1 (by decide) 1 0 (by decide) (by decide)).1,
   (getImage_channel_order (sampleSource sampleFrameTL false) staleImage (openSys 1)
      sampleFrameTL (by decide) rfl rfl).2 (by decide) 1 0 (by decide) (by decide)⟩

/-! ## open -/

/-- The backend open inside `open`, started without a session: it calls no
release, it returns true exactly when a backend open yielded a non-null handle,
and the capture pointer afterwards is that handle, or null on failure. -/
theorem openCapture_spec {σ : Type} (B : Backend σ) (config : Searchable) (s : Sys σ)
    (h0 : s.self.m_capture = 0) :
    ∃ rest : List Event,
      (OpenCVGrabber.openCapture B config s).2.trace = s.trace ++ rest ∧
      (∀ e ∈ rest, e.isRelease = false) ∧
      ((OpenCVGrabber.openCapture B config s).1 = true ↔
        ∃ e ∈ rest, ∃ h, e.opened = some h ∧ h ≠ 0) ∧
      (∀ e ∈ rest, ∀ h, e.opened = some h →
        h = (OpenCVGrabber.openCapture B config s).2.self.m_capture) ∧
      ((OpenCVGrabber.openCapture B config s).1 = false →
        (OpenCVGrabber.openCapture B config s).2.self.m_capture = 0) := by
  unfold OpenCVGrabber.openCapture
  by_cases hf : config.check "file" = true
  · by_cases he : "" = (config.checkD "file" (Value.vString "")).asString
    · refine ⟨[], ?_⟩
      simp [hf, he.symm, h0]
    · by_cases hc : 0 = (B.cvCaptureFromAVI s.world
          (config.checkD "file" (Value.vString "")).asString).1
      · refine ⟨[Event.captureFromAVI (config.checkD "file" (Value.vString "")).asString
          (B.cvCaptureFromAVI s.world (config.checkD "file" (Value.vString "")).asString).1], ?_⟩
        simp [hf, he, hc.symm, Event.isRelease, Event.opened]
      · refine ⟨[Event.captureFromAVI (config.checkD "file" (Value.vString "")).asString
          (B.cvCaptureFromAVI s.world (config.checkD "file" (Value.vString "")).asString).1], ?_⟩
        have hc2 : ¬ ((B.cvCaptureFromAVI s.world
          (config.checkD "file" (Value.vString "")).asString).1 = 0) := fun e => hc e.symm
        simp [hf, he, hc, hc2, Event.isRelease, Event.opened]
  · by_cases hc : 0 = (B.cvCaptureFromCAM s.world (-1)).1
    · refine ⟨[Event.captureFromCAM (-1) (B.cvCaptureFromCAM s.world (-1)).1], ?_⟩
      simp [hf, hc.symm, Event.isRelease, Event.opened]
    · refine ⟨[Event.captureFromCAM (-1) (B.cvCaptureFromCAM s.world (-1)).1], ?_⟩
      have hc2 : ¬ ((B.cvCaptureFromCAM s.world (-1)).1 = 0) := fun e => hc e.symm
      simp [hf, hc, hc2, Event.isRelease, Event.opened]

/-- Resolving the size leaves the capture pointer and the backend state alone and
calls only `cvGetCaptureProperty`. -/
theorem resolveSize_spec {σ : Type} (B : Backend σ) (config : Searchable) (s : Sys σ) :
    (OpenCVGrabber.resolveSize B config s).self.m_capture = s.self.m_capture ∧
    (OpenCVGrabber.resolveSize B config s).world = s.world ∧
    ∃ rest : List Event,
      (OpenCVGrabber.resolveSize B config s).trace = s.trace ++ rest ∧
      (∀ e ∈ rest, e.isRelease = false ∧ e.opened = none) := by
  unfold OpenCVGrabber.resolveSize
  by_cases hw : config.check "w" = true <;> by_cases hh : config.check "h" = true
  · exact ⟨by simp [hw, hh], by simp [hw, hh], [], by simp [hw, hh]⟩
  · exact ⟨by simp [hw, hh], by simp [hw, hh],
      [Event.getCaptureProperty s.self.m_capture CaptureProperty.CV_CAP_PROP_FRAME_HEIGHT
        (B.cvGetCaptureProperty s.world s.self.m_capture
          CaptureProperty.CV_CAP_PROP_FRAME_HEIGHT)],
      by simp [hw, hh], by simp [Event.isRelease, Event.opened]⟩
  · exact ⟨by simp [hw, hh], by simp [hw, hh],
      [Event.getCaptureProperty s.self.m_capture CaptureProperty.CV_CAP_PROP_FRAME_WIDTH
        (B.cvGetCaptureProperty s.world s.self.m_capture
          CaptureProperty.CV_CAP_PROP_FRAME_WIDTH)],
      by simp [hw, hh], by simp [Event.isRelease, Event.opened]⟩
  · exact ⟨by simp [hw, hh], by simp [hw, hh],
      [Event.getCaptureProperty s.self.m_capture CaptureProperty.CV_CAP_PROP_FRAME_WIDTH
        (B.cvGetCaptureProperty s.world s.self.m_capture
          CaptureProperty.CV_CAP_PROP_FRAME_WIDTH),
       Event.getCaptureProperty s.self.m_capture CaptureProperty.CV_CAP_PROP_FRAME_HEIGHT
        (B.cvGetCaptureProperty s.world s.self.m_capture
          CaptureProperty.CV_CAP_PROP_FRAME_HEIGHT)],
      by simp [hw, hh], by simp [Event.isRelease, Event.opened]⟩

/-- C3: from any state and for any configuration, the backend calls of `open` are:
first the release of the session held before (when one was held, and nothing
when none was), then calls among which there is no further release; `open`
returns true exactly when among these later calls a backend open (file or
camera) yielded a non-null handle; every handle a backend open yielded is the
capture pointer afterwards, which is non-null on success and null on failure.
Applied to the state a first `open` leaves, this covers a second `open` without a
`close` in between: the first handle is released before the new backend open
and the pointer afterwards is the new handle or null. -/
theorem open_replaces_session {σ : Type} (B : Backend σ) (config : Searchable) (s : Sys σ) :
    ∃ rest : List Event,
      (OpenCVGrabber.open B config s).2.trace =
        s.trace ++ (if s.self.m_capture ≠ 0 then
          [Event.releaseCapture s.self.m_capture
            (B.cvReleaseCapture s.world s.self.m_capture).1] else []) ++ rest ∧
      (∀ e ∈ rest, e.isRelease = false) ∧
      ((OpenCVGrabber.open B config s).1 = true ↔
        ∃ e ∈ rest, ∃ h, e.opened = some h ∧ h ≠ 0) ∧
      (∀ e ∈ rest, ∀ h, e.opened = some h →
        h = (OpenCVGrabber.open B config s).2.self.m_capture) ∧
      ((OpenCVGrabber.open B config s).1 = true →
        (OpenCVGrabber.open B config s).2.self.m_capture ≠ 0) ∧
      ((OpenCVGrabber.open B config s).1 = false →
        (OpenCVGrabber.open B config s).2.self.m_capture = 0) := by
  obtain ⟨rest1, ht1, hr1, hiff1, hall1, hfail1⟩ :=
    openCapture_spec B config (OpenCVGrabber.close B s).2 (close_capture_null B s)
  obtain ⟨hcap2, _, rest2, ht2, hr2⟩ :=
    resolveSize_spec B config (OpenCVGrabber.openCapture B config (OpenCVGrabber.close B s).2).2
  rw [close_trace B s] at ht1
  cases hret : (OpenCVGrabber.openCapture B config (OpenCVGrabber.close B s).2).1
  · -- the backend open failed, or was not attempted
    have hopen : OpenCVGrabber.open B config s =
        (false, (OpenCVGrabber.openCapture B config (OpenCVGrabber.close B s).2).2) := by
      unfold OpenCVGrabber.open
      simp [hret]
    rw [hopen]
    refine ⟨rest1, ht1, hr1, ?_, hall1, ?_, fun _ => hfail1 hret⟩
    · rw [← hiff1, hret]
    · intro h; exact Bool.noConfusion h
  · -- the backend open succeeded
    have hopen : OpenCVGrabber.open B config s =
        (true, OpenCVGrabber.resolveSize B config
          (OpenCVGrabber.openCapture B config (OpenCVGrabber.close B s).2).2) := by
      unfold OpenCVGrabber.open
      simp [hret]
    rw [hopen]
    have hex := hiff1.mp hret
    have hne : (OpenCVGrabber.openCapture B config (OpenCVGrabber.close B s).2).2.self.m_capture
        ≠ 0 := by
      obtain ⟨e, he, h, hh, hn⟩ := hex
      rw [← hall1 e he h hh]
      exact hn
    refine ⟨rest1 ++ rest2, ?_, ?_, ?_, ?_, ?_, ?_⟩
    · show (OpenCVGrabber.resolveSize B config _).trace = _
      rw [ht2, ht1]
      simp only [List.append_assoc]
    · intro e he
      rcases List.mem_append.mp he with h | h
      · exact hr1 e h
      · exact (hr2 e h).1
    · constructor
      · intro _
        obtain ⟨e, he, h, hh, hn⟩ := hex
        exact ⟨e, List.mem_append.mpr (Or.inl he), h, hh, hn⟩
      · intro _; rfl
    · intro e he h hh
      show h = (OpenCVGrabber.resolveSize B config _).self.m_capture
      rw [hcap2]
      rcases List.mem_append.mp he with h1 | h2
      · exact hall1 e h1 h hh
      · rw [(hr2 e h2).2] at hh
        exact Option.noConfusion hh
    · intro _
      show (OpenCVGrabber.resolveSize B config _).self.m_capture ≠ 0
      rw [hcap2]
      exact hne
    · intro h; exact Bool.noConfusion h

/-- C3 on two successive opens without a `close` between them: the camera opens
with handle 7, the second `open` releases 7 before it opens the file, and the
grabber ends with the handle 9 of the file. -/
theorem open_replaces_session_witness :
    (OpenCVGrabber.open (sampleSource sampleFrameTL false)
      (mkConfig (some (Value.vString "clip.avi")) none none)
      (OpenCVGrabber.open (sampleSource sampleFrameTL false)
        (mkConfig none none none) (closedSys 1)).2).2.self.m_capture = 9 ∧
    ∃ rest : List Event,
      (OpenCVGrabber.open (sampleSource sampleFrameTL false)
        (mkConfig (some (Value.vString "clip.avi")) none none)
        (OpenCVGrabber.open (sampleSource sampleFrameTL false)
          (mkConfig none none none) (closedSys 1)).2).2.trace =
        (OpenCVGrabber.open (sampleSource sampleFrameTL false)
          (mkConfig none none none) (closedSys 1)).2.trace
          ++ [Event.releaseCapture 7 0] ++ rest ∧
      (∀ e ∈ rest, e.isRelease = false) := by
  refine ⟨by decide, ?_⟩
  obtain ⟨rest, h1, h2, _⟩ := open_replaces_session (sampleSource sampleFrameTL false)
    (mkConfig (some (Value.vString "clip.avi")) none none)
    (OpenCVGrabber.open (sampleSource sampleFrameTL false)
      (mkConfig none none none) (closedSys 1)).2
  exact ⟨rest, h1, h2⟩

/-- C4: when the key `file` is present with the empty string as its value, `open`
returns false; its only backend call is the release of a session held before,
so neither a file nor a camera open is attempted; no session is held afterwards;
and a `close` right after returns true, calls nothing and changes nothing. -/
theorem open_empty_file {σ : Type} (B : Backend σ) (config : Searchable) (s : Sys σ)
    (hfile : config.find "file" = some (Value.vString "")) :
    (OpenCVGrabber.open B config s).1 = false ∧
    (OpenCVGrabber.open B config s).2.trace =
      s.trace ++ (if s.self.m_capture ≠ 0 then
        [Event.releaseCapture s.self.m_capture
          (B.cvReleaseCapture s.world s.self.m_capture).1] else []) ∧
    (∀ e ∈ (OpenCVGrabber.open B config s).2.trace, e ∉ s.trace → e.opened = none) ∧
    (OpenCVGrabber.open B config s).2.self.m_capture = 0 ∧
    OpenCVGrabber.close B (OpenCVGrabber.open B config s).2 =
      (true, (OpenCVGrabber.open B config s).2) := by
  have hcap : OpenCVGrabber.openCapture B config (OpenCVGrabber.close B s).2 =
      (false, (OpenCVGrabber.close B s).2) := by
    unfold OpenCVGrabber.openCapture
    simp [Searchable.check, Searchable.checkD, hfile, Value.asString]
  have hopen : OpenCVGrabber.open B config s = (false, (OpenCVGrabber.close B s).2) := by
    unfold OpenCVGrabber.open
    simp [hcap]
  rw [hopen]
  refine ⟨rfl, close_trace B s, ?_, close_capture_null B s,
    close_of_null B _ (close_capture_null B s)⟩
  intro e he hnot
  simp only [close_trace B s] at he
  rcases List.mem_append.mp he with h | h
  · exact absurd h hnot
  · by_cases hc : s.self.m_capture = 0
    · simp [hc] at h
    · simp [hc] at h
      rw [h]
      rfl

/-- C4 at a grabber that holds the session 7: the empty file name makes `open`
fail after the release of 7 and nothing else. -/
theorem open_empty_file_witness :
    (OpenCVGrabber.open (sampleSource sampleFrameTL false)
      (mkConfig (some (Value.vString "")) none none) (openSys 1)).1 = false ∧
    (OpenCVGrabber.open (sampleSource sampleFrameTL false)
      (mkConfig (some (Value.vString "")) none none) (openSys 1)).2.trace
      = [Event.releaseCapture 7 0] :=
  have h := open_empty_file (sampleSource sampleFrameTL false)
    (mkConfig (some (Value.vString "")) none none) (openSys 1) rfl
  ⟨h.1, h.2.1⟩

/-- The size fields after `resolveSize`, per dimension. -/
theorem resolveSize_fields {σ : Type} (B : Backend σ) (config : Searchable) (s : Sys σ) :
    (∀ i : Int, config.find "w" = some (Value.vInt i) →
      (OpenCVGrabber.resolveSize B config s).self.m_w = i) ∧
    (∀ i : Int, config.find "h" = some (Value.vInt i) →
      (OpenCVGrabber.resolveSize B config s).self.m_h = i) ∧
    (config.find "w" = none →
      (OpenCVGrabber.resolveSize B config s).self.m_w =
        B.cvGetCaptureProperty s.world s.self.m_capture
          CaptureProperty.CV_CAP_PROP_FRAME_WIDTH) ∧
    (config.find "h" = none →
      (OpenCVGrabber.resolveSize B config s).self.m_h =
        B.cvGetCaptureProperty s.world s.self.m_capture
          CaptureProperty.CV_CAP_PROP_FRAME_HEIGHT) := by
  unfold OpenCVGrabber.resolveSize
  refine ⟨?_, ?_, ?_, ?_⟩
  · intro i hi
    have hw : config.check "w" = true := by simp [Searchable.check, hi]
    have hv : (config.checkD "w" (Value.vInt (-1))).asInt = i := by
      simp [Searchable.checkD, hi, Value.asInt]
    by_cases hh : config.check "h" = true <;> simp [hw, hv, hh]
  · intro i hi
    have hh : config.check "h" = true := by simp [Searchable.check, hi]
    have hv : (config.checkD "h" (Value.vInt (-1))).asInt = i := by
      simp [Searchable.checkD, hi, Value.asInt]
    by_cases hw : config.check "w" = true <;> simp [hw, hv, hh]
  · intro hn
    have hw : config.check "w" = false := by simp [Searchable.check, hn]
    by_cases hh : config.check "h" = true <;> simp [hw, hh]
  · intro hn
    have hh : config.check "h" = false := by simp [Searchable.check, hn]
    by_cases hw : config.check "w" = true <;> simp [hw, hh]

/-- C5: after a successful `open`, per dimension: when `w` (respectively `h`) is
supplied as an integer, `m_w` (respectively `m_h`) is that integer, whichever it
is and whatever the source reports; when the key is absent, the dimension is the
value the backend reports for the session just opened. -/
theorem open_resolves_size {σ : Type} (B : Backend σ) (config : Searchable) (s : Sys σ)
    (hok : (OpenCVGrabber.open B config s).1 = true) :
    (∀ i : Int, config.find "w" = some (Value.vInt i) →
      (OpenCVGrabber.open B config s).2.self.m_w = i) ∧
    (∀ i : Int, config.find "h" = some (Value.vInt i) →
      (OpenCVGrabber.open B config s).2.self.m_h = i) ∧
    (config.find "w" = none →
      (OpenCVGrabber.open B config s).2.self.m_w =
        B.cvGetCaptureProperty (OpenCVGrabber.open B config s).2.world
          (OpenCVGrabber.open B config s).2.self.m_capture
          CaptureProperty.CV_CAP_PROP_FRAME_WIDTH) ∧
    (config.find "h" = none →
      (OpenCVGrabber.open B config s).2.self.m_h =
        B.cvGetCaptureProperty (OpenCVGrabber.open B config s).2.world
          (OpenCVGrabber.open B config s).2.self.m_capture
          CaptureProperty.CV_CAP_PROP_FRAME_HEIGHT) := by
  have hopen : OpenCVGrabber.open B config s =
      (true, OpenCVGrabber.resolveSize B config
        (OpenCVGrabber.openCapture B config (OpenCVGrabber.close B s).2).2) := by
    cases hret : (OpenCVGrabber.openCapture B config (OpenCVGrabber.close B s).2).1
    · have : (OpenCVGrabber.open B config s).1 = false := by
        unfold OpenCVGrabber.open
        simp [hret]
      rw [this] at hok
      exact Bool.noConfusion hok
    · unfold OpenCVGrabber.open
      simp [hret]
  rw [hopen]
  obtain ⟨hcap, hworld, _⟩ := resolveSize_spec B config
    (OpenCVGrabber.openCapture B config (OpenCVGrabber.close B s).2).2
  obtain ⟨h1, h2, h3, h4⟩ := resolveSize_fields B config
    (OpenCVGrabber.openCapture B config (OpenCVGrabber.close B s).2).2
  refine ⟨h1, h2, ?_, ?_⟩
  · intro hn
    show (OpenCVGrabber.resolveSize B config _).self.m_w =
      B.cvGetCaptureProperty (OpenCVGrabber.resolveSize B config _).world
        (OpenCVGrabber.resolveSize B config _).self.m_capture _
    rw [hcap, hworld]
    exact h3 hn
  · intro hn
    show (OpenCVGrabber.resolveSize B config _).self.m_h =
      B.cvGetCaptureProperty (OpenCVGrabber.resolveSize B config _).world
        (OpenCVGrabber.resolveSize B config _).self.m_capture _
    rw [hcap, hworld]
    exact h4 hn

/-- C5 at a 640 by 480 camera opened with `w = -5` and no `h`: the width is the
supplied -5, the height the 480 of the device. -/
theorem open_resolves_size_witness :
    (OpenCVGrabber.open (sampleSource sampleFrameTL false)
      (mkConfig none (some (Value.vInt (-5))) none) (closedSys 1)).2.self.m_w = -5 ∧
    (OpenCVGrabber.open (sampleSource sampleFrameTL false)
      (mkConfig none (some (Value.vInt (-5))) none) (closedSys 1)).2.self.m_h = 480 :=
  have h := open_resolves_size (sampleSource sampleFrameTL false)
    (mkConfig none (some (Value.vInt (-5))) none) (closedSys 1) rfl
  ⟨h.1 (-5) rfl, h.2.2.2 rfl⟩

/-- C2 at its failing input: a grabber opened with `w = 320`, `h = 240` on a
camera that delivers no frame.  `getImage` on a two by two image returns false
and zeroes the image, and the image is still two by two, not 320 by 240. -/
theorem getImage_failure_keeps_size :
    sys320Dry.self.m_w = 320 ∧ sys320Dry.self.m_h = 240 ∧
    (OpenCVGrabber.getImage (sampleSource sampleFrameVGA false) staleImage sys320Dry).1 = false ∧
    (OpenCVGrabber.getImage (sampleSource sampleFrameVGA false) staleImage sys320Dry).2.1.allZero ∧
    (OpenCVGrabber.getImage (sampleSource sampleFrameVGA false) staleImage sys320Dry).2.1.width
      = 2 ∧
    (OpenCVGrabber.getImage (sampleSource sampleFrameVGA false) staleImage sys320Dry).2.1.height
      = 2 ∧
    ¬ (((OpenCVGrabber.getImage (sampleSource sampleFrameVGA false) staleImage
          sys320Dry).2.1.width : Int) = sys320Dry.self.m_w ∧
       ((OpenCVGrabber.getImage (sampleSource sampleFrameVGA false) staleImage
          sys320Dry).2.1.height : Int) = sys320Dry.self.m_h) := by
  decide

end Yarp
